import Mathlib

set_option maxRecDepth 1000000

/-
Verification of `apply-fixes.py`: a one-shot maintenance script that reads a
markdown template into memory, performs a fixed ordered sequence of literal
text substitutions (Python `str.replace`, which substitutes every
non-overlapping occurrence scanning left to right), writes the buffer back
wholesale, and prints a fixed success report.

The document content is modelled as `List Char`.  `replaceAll` is a faithful
embedding of Python `str.replace(old, new)` (all occurrences, left to right,
replacement text never rescanned; the empty pattern interleaves the
replacement between every character).  `occursIn` embeds Python's
`sub in s` substring test.  The script's straight-line body is embedded as
`applyFixes` (the pure buffer transformation) and `script` (the I/O shape:
one read, one wholesale write, five fixed report lines, exit code).
-/

namespace ApplyFixesScript

/-- Python `''`-pattern replacement: `s.replace('', rep)` puts `rep` in every
gap, including both ends. -/
def interleave (rep : List Char) : List Char → List Char
  | [] => rep
  | c :: rest => rep ++ c :: interleave rep rest

/-- Worker for `replaceAll`: scans the text left to right; `skip` counts
characters of an already-matched region still to be consumed (they are not
rescanned, matching Python's semantics). -/
def replaceGo (pat rep : List Char) : List Char → Nat → List Char
  | [], _ => []
  | _ :: rest, skip + 1 => replaceGo pat rep rest skip
  | c :: rest, 0 =>
      if pat.isPrefixOf (c :: rest) then rep ++ replaceGo pat rep rest (pat.length - 1)
      else c :: replaceGo pat rep rest 0

/-- Embedding of Python `s.replace(pat, rep)`: every non-overlapping
occurrence of `pat`, scanned left to right, is replaced by `rep`. -/
def replaceAll (pat rep s : List Char) : List Char :=
  match pat with
  | [] => interleave rep s
  | _ :: _ => replaceGo pat rep s 0

/-- Embedding of Python `pat in s` (substring test). -/
def occursIn (pat : List Char) : List Char → Bool
  | [] => pat.isEmpty
  | c :: rest => pat.isPrefixOf (c :: rest) || occursIn pat rest

end ApplyFixesScript

namespace ApplyFixesScript

/- The literal patch data of `apply-fixes.py`, transcribed byte for byte.
`fix1a`/`fix1b` are the two inline `content.replace` calls of Fix #1;
`step_31a`/`step_32_marker` belong to the guarded Fix #2; `apo2_step3`,
`apo2_apply`, `apo3_creation` (with their `_new` versions) are Fix #3; the
`phase2_*` strings are Fix #4. -/

def template_path : String := "src/templates/.claude/commands/maintenance/trinity-docs-update.md.template"

def fix1a_old : List Char := ("**APO-2: Update Existing Business Logic Documentation**").toList

def fix1a_new : List Char := ("**APO-2: Tightly-Coupled Business Logic (Create OR Update)**\n- **CREATES new docs if none exist, UPDATES if docs exist**\n- Decision criteria: COUPLING (not whether docs already exist)").toList

def fix1b_old : List Char := ("  - YES → APO-2 updates existing documentation").toList

def fix1b_new : List Char := ("  - YES → APO-2 creates OR updates documentation (depending on if docs exist)").toList

def step_31_marker : List Char := ("### Step 3.1: Read APO Completion Reports").toList

def step_32_marker : List Char := ("### Step 3.2: Comprehensive Alignment Verification").toList

def step_31a : List Char := ("\n### Step 3.1A: Verify Filesystem Reality\n\n**CRITICAL: Do not trust APO reports - verify files physically exist.**\n\n**For each file claimed in APO reports:**\n\n1. **Extract claimed files from reports:**\n   - APO-1 claimed files: Read \x22Files Modified\x22 section from APO-1 report\n   - APO-2 claimed files: Read \x22Components Updated\x22 section, extract target paths\n   - APO-3 claimed files: Read \x22New Files Created\x22 section from APO-3 report\n\n2. **Verify filesystem:**\n   ```bash\n   verified_count=0\n   for file in claimed_files; do\n     if [ -f \x22$file\x22 ] && [ -s \x22$file\x22 ]; then  # exists and not empty\n       echo \x22✅ $file EXISTS\x22\n       verified_count=$((verified_count + 1))\n     else\n       echo \x22❌ $file MISSING or EMPTY\x22\n       # Create CRITICAL discrepancy\n     fi\n   done\n   ```\n\n3. **Compare counts:**\n   - Claimed: X files\n   - Verified: Y files\n   - If X ≠ Y → Create HIGH severity discrepancies\n   - **Use VERIFIED count for alignment calculation (not claimed count)**\n\n---\n\n").toList

def apo2_step3 : List Char := ("**For each component:**\n\n1. **Read current documentation**\n   - Use Read tool on docs file (e.g., `docs/api/refund-service.md`)\n\n2. **Read component source code**").toList

def apo2_step3_new : List Char := ("**For each component:**\n\n1. **Read current documentation**\n   - Use Read tool on docs file (e.g., `docs/api/refund-service.md`)\n   - If file does NOT exist, note that file must be CREATED\n\n2. **Read component source code**").toList

def apo2_apply : List Char := ("4. **Apply updates**\n   - Add missing methods\n   - Fix incorrect signatures\n   - Update behavior descriptions\n   - Document error cases\n   - Document dependencies and ties\n\n5. **Update cross-references**").toList

def apo2_apply_new : List Char := ("4. **Apply updates**\n   - Add missing methods\n   - Fix incorrect signatures\n   - Update behavior descriptions\n   - Document error cases\n   - Document dependencies and ties\n\n5. **Create or update file (MANDATORY):**\n   - If file exists: Use Edit tool to modify existing file\n   - If file does NOT exist: Use Write tool to create new file\n   - After Write/Edit: Use Read tool to verify changes applied\n\n   Example:\n   ```typescript\n   // For NEW file:\n   await write_file(\x27docs/api/component.md\x27, doc_content)\n   const verify = await read_file(\x27docs/api/component.md\x27)\n\n   // For EXISTING file:\n   await edit_file(\x27docs/api/component.md\x27, old_text, new_text)\n   const verify = await read_file(\x27docs/api/component.md\x27)\n   ```\n\n6. **Update cross-references**").toList

def apo3_step3_marker : List Char := ("#### APO-3 Step 3: Create Documentation for Each Component").toList

def apo3_step4_marker : List Char := ("#### APO-3 Step 4: Validate Documentation Against Code").toList

def apo3_creation : List Char := ("\n\n**For each component, create NEW documentation file:**\n\n**Determine documentation location:**").toList

def apo3_creation_new : List Char := ("\n\n**For each component, create NEW documentation file using Write tool:**\n\n**CRITICAL: You must physically CREATE files, not just describe them in reports.**\n\n**File creation workflow:**\n1. Read component source code and analyze\n2. Generate documentation content\n3. **Use Write tool to create file at target path**\n4. **Use Read tool to verify file exists and has content (>100 bytes)**\n5. Only mark as complete if verification passes\n\nExample:\n```typescript\n// Generate content\nconst doc_content = generate_docs(component)\n\n// CREATE file\nawait write_file(target_path, doc_content)\n\n// VERIFY creation\nconst verify = await read_file(target_path)\nif (!verify || verify.length < 100) \x7b\n  throw Error(`File creation failed: $\x7btarget_path\x7d`)\n\x7d\n```\n\n**Determine documentation location:**").toList

def phase2_completion : List Char := ("### Phase 2 Completion\n\n**All 3 APOs complete their work and generate completion reports.**").toList

def continuation : List Char := ("\n\n---\n\n### Phase 2 Continuation Protocol\n\n**If context/token limits reached during Phase 2:**\n\n1. **Save progress state:**\n   - Record which APOs completed\n   - Record which APOs are pending\n   - Save to checkpoint report\n\n2. **When resumed:**\n   - Read checkpoint report\n   - Identify pending APOs from state\n   - Resume execution for pending APOs\n   - Continue to Phase 3 when all complete\n\n3. **DO NOT:**\n   - Stop for user review mid-phase\n   - Ask user for permission to continue\n   - Wait for confirmation\n\n**Automatic continuation is mandatory per Rule 2.**\n\n---\n\n**Proceed to Phase 3.**\n\n---").toList

def phase2_old : List Char := ("### Phase 2 Completion\n\n**All 3 APOs complete their work and generate completion reports.**\n\n**Update global state:**").toList

def phase2_tail : List Char := ("\n\n**Update global state:**").toList

/-- Fix #1, first `content.replace`. -/
def fix1a (content : List Char) : List Char := replaceAll fix1a_old fix1a_new content

/-- Fix #1, second `content.replace`. -/
def fix1b (content : List Char) : List Char := replaceAll fix1b_old fix1b_new content

/-- Fix #2: guarded by `if step_31a not in content`. -/
def fix2 (content : List Char) : List Char :=
  if occursIn step_31a content then content
  else replaceAll step_32_marker (step_31a ++ step_32_marker) content

/-- Fix #3, APO-2 Step 3 replace. -/
def fix3a (content : List Char) : List Char := replaceAll apo2_step3 apo2_step3_new content

/-- Fix #3, APO-2 apply-updates replace. -/
def fix3b (content : List Char) : List Char := replaceAll apo2_apply apo2_apply_new content

/-- Fix #3, APO-3 creation replace. -/
def fix3c (content : List Char) : List Char := replaceAll apo3_creation apo3_creation_new content

/-- Fix #4: the final `content.replace` (its replacement is the Python
expression `phase2_completion + continuation + '...'`). -/
def fix4 (content : List Char) : List Char :=
  replaceAll phase2_old (phase2_completion ++ continuation ++ phase2_tail) content

/-- The whole in-memory transformation of the script, in source order. -/
def applyFixes (content : List Char) : List Char :=
  fix4 (fix3c (fix3b (fix3a (fix2 (fix1b (fix1a content))))))

end ApplyFixesScript

namespace ApplyFixesScript

/-- One observable file-system / console effect of the script. -/
inductive FileOp where
  | read : FileOp
  | write : List Char → FileOp
  | print : List Char → FileOp

/-- The five report lines printed at the end of the script, byte for byte. -/
def successLines : List (List Char) :=
  [("✅ All 4 fixes applied successfully:").toList,
   ("  - Fix #1: APO-2 assignment criteria clarified").toList,
   ("  - Fix #2: Filesystem verification added to JUNO Step 3.1A").toList,
   ("  - Fix #3: File creation instructions added to APO-2 & APO-3").toList,
   ("  - Fix #4: Continuation protocol added to Phase 2").toList]

/-- The whole run.  `readResult` is the outcome of `open(template_path, 'r')`:
`none` models an unreadable file (the raised `IOError` propagates, so no
further effect happens and Python exits with status 1); `some content` models
a successful read, after which the script unconditionally computes
`applyFixes content`, opens the file for writing, writes the buffer
wholesale, prints the five report lines and exits with status 0.
Returns the ordered effect trace and the process exit code. -/
def script (readResult : Option (List Char)) : List FileOp × Nat :=
  match readResult with
  | none => ([], 1)
  | some content =>
      (FileOp.read :: FileOp.write (applyFixes content) :: successLines.map FileOp.print, 0)

/-- The contents written by the traced run, in order. -/
def writesOf (t : List FileOp) : List (List Char) :=
  t.filterMap fun op => match op with
    | FileOp.write c => some c
    | _ => none

/-- The lines printed by the traced run, in order. -/
def printsOf (t : List FileOp) : List (List Char) :=
  t.filterMap fun op => match op with
    | FileOp.print l => some l
    | _ => none

/-- Number of successful reads in the trace. -/
def readsCount (t : List FileOp) : Nat :=
  t.countP fun op => match op with
    | FileOp.read => true
    | _ => false

/-- The spec's PatchSpec entry: a matcher, its replacement, and an optional
idempotency guard (skip the edit when the guard text is already present). -/
structure PatchEdit where
  matcher : List Char
  replacement : List Char
  skipIfPresent : Option (List Char)

/-- Apply one PatchSpec entry to the buffer. -/
def applyEdit (content : List Char) (e : PatchEdit) : List Char :=
  match e.skipIfPresent with
  | some g => if occursIn g content then content else replaceAll e.matcher e.replacement content
  | none => replaceAll e.matcher e.replacement content

/-- The script's seven edits as an ordered PatchSpec, in source order. -/
def fixesSpec : List PatchEdit :=
  [⟨fix1a_old, fix1a_new, none⟩,
   ⟨fix1b_old, fix1b_new, none⟩,
   ⟨step_32_marker, step_31a ++ step_32_marker, some step_31a⟩,
   ⟨apo2_step3, apo2_step3_new, none⟩,
   ⟨apo2_apply, apo2_apply_new, none⟩,
   ⟨apo3_creation, apo3_creation_new, none⟩,
   ⟨phase2_old, phase2_completion ++ continuation ++ phase2_tail, none⟩]

end ApplyFixesScript

namespace ApplyFixesScript

/-- The empty pattern is a substring of everything (as in Python). -/
theorem occursIn_nil_left (s : List Char) : occursIn [] s = true := by
  cases s <;> simp [occursIn, List.isEmpty]

/-- A Boolean prefix is no longer than the list it prefixes. -/
theorem isPrefixOf_length_le {l₁ l₂ : List Char} (h : l₁.isPrefixOf l₂ = true) :
    l₁.length ≤ l₂.length := by
  induction l₁ generalizing l₂ with
  | nil => simp
  | cons a as ih =>
    cases l₂ with
    | nil => simp [List.isPrefixOf] at h
    | cons b bs =>
      rw [List.isPrefixOf_cons₂, Bool.and_eq_true] at h
      simpa using Nat.succ_le_succ (ih h.2)

/-- If the pattern does not occur, the scan copies the text unchanged. -/
theorem replaceGo_of_not_occurs (pat rep : List Char) :
    ∀ s, occursIn pat s = false → replaceGo pat rep s 0 = s := by
  intro s
  induction s with
  | nil => intro _; rfl
  | cons c rest ih =>
    intro h
    simp only [occursIn, Bool.or_eq_false_iff] at h
    simp [replaceGo, h.1, ih h.2]

/-- Python `s.replace(pat, rep)` is the identity when `pat` is absent. -/
theorem replaceAll_of_not_occurs {pat rep s : List Char} (h : occursIn pat s = false) :
    replaceAll pat rep s = s := by
  cases pat with
  | nil => rw [occursIn_nil_left] at h; cases h
  | cons p ps => exact replaceGo_of_not_occurs _ rep s h

/-- The scan never shortens the text by more than the pending skip when the
replacement is at least as long as the pattern. -/
theorem replaceGo_length_ge (pat rep : List Char) (hp : 0 < pat.length)
    (hlen : pat.length ≤ rep.length) :
    ∀ s skip, s.length - skip ≤ (replaceGo pat rep s skip).length := by
  intro s
  induction s with
  | nil => intro skip; simp [replaceGo]
  | cons c rest ih =>
    intro skip
    cases skip with
    | succ skip' =>
      have := ih skip'
      simp only [replaceGo, List.length_cons]
      omega
    | zero =>
      by_cases hpre : pat.isPrefixOf (c :: rest) = true
      · have hle : pat.length ≤ rest.length + 1 := by
          simpa using isPrefixOf_length_le hpre
        have := ih (pat.length - 1)
        simp only [replaceGo, hpre, if_true, List.length_append, List.length_cons]
        omega
      · have := ih 0
        rw [Bool.not_eq_true] at hpre
        simp only [replaceGo, hpre, Bool.false_eq_true, if_false, List.length_cons]
        omega

/-- `str.replace` with a replacement at least as long as the (nonempty)
pattern never shortens the text. -/
theorem replaceAll_length_ge (pat rep : List Char) (hp : 0 < pat.length)
    (hlen : pat.length ≤ rep.length) (s : List Char) :
    s.length ≤ (replaceAll pat rep s).length := by
  cases pat with
  | nil => simp at hp
  | cons p ps => simpa using replaceGo_length_ge (p :: ps) rep hp hlen s 0

end ApplyFixesScript

namespace ApplyFixesScript

/-- Worker for `splitOnPat`: same scan as `replaceGo`, collecting the pieces
between the matched occurrences instead of substituting. -/
def splitGo (pat : List Char) : List Char → Nat → List (List Char)
  | [], _ => [[]]
  | _ :: rest, skip + 1 => splitGo pat rest skip
  | c :: rest, 0 =>
      if pat.isPrefixOf (c :: rest) then [] :: splitGo pat rest (pat.length - 1)
      else
        match splitGo pat rest 0 with
        | [] => [[c]]
        | x :: xs => (c :: x) :: xs

/-- Embedding of Python `s.split(pat)` for a nonempty separator: the pieces
between the non-overlapping occurrences of `pat`, scanned left to right. -/
def splitOnPat (pat s : List Char) : List (List Char) :=
  match pat with
  | [] => [s]
  | _ :: _ => splitGo pat s 0

/-- Join a list of pieces with a separator, as Python `sep.join(pieces)`. -/
def joinSep (sep : List Char) : List (List Char) → List Char
  | [] => []
  | [x] => x
  | x :: y :: ys => x ++ sep ++ joinSep sep (y :: ys)

/-- A split always produces at least one piece. -/
theorem splitGo_ne_nil (pat : List Char) : ∀ s skip, splitGo pat s skip ≠ [] := by
  intro s
  induction s with
  | nil => intro skip; simp [splitGo]
  | cons c rest ih =>
    intro skip
    cases skip with
    | succ skip' => simpa [splitGo] using ih skip'
    | zero =>
      by_cases hpre : pat.isPrefixOf (c :: rest) = true
      · simp [splitGo, hpre]
      · rw [Bool.not_eq_true] at hpre
        rcases hsp : splitGo pat rest 0 with _ | ⟨x, xs⟩
        · exact absurd hsp (ih 0)
        · simp [splitGo, hpre, hsp]

/-- Joining after an empty leading piece prepends one separator. -/
theorem joinSep_nil_cons (sep : List Char) (L : List (List Char)) (hL : L ≠ []) :
    joinSep sep ([] :: L) = sep ++ joinSep sep L := by
  cases L with
  | nil => exact absurd rfl hL
  | cons x xs => simp [joinSep]

/-- A character prepended to the first piece moves out of the join. -/
theorem joinSep_consHead (sep : List Char) (c : Char) (x : List Char)
    (xs : List (List Char)) :
    joinSep sep ((c :: x) :: xs) = c :: joinSep sep (x :: xs) := by
  cases xs with
  | nil => simp [joinSep]
  | cons y ys => simp [joinSep]

/-- The replacement scan equals the split-then-join of the same scan. -/
theorem replaceGo_eq_joinSep (pat rep : List Char) :
    ∀ s skip, replaceGo pat rep s skip = joinSep rep (splitGo pat s skip) := by
  intro s
  induction s with
  | nil => intro skip; simp [replaceGo, splitGo, joinSep]
  | cons c rest ih =>
    intro skip
    cases skip with
    | succ skip' => simpa [replaceGo, splitGo] using ih skip'
    | zero =>
      by_cases hpre : pat.isPrefixOf (c :: rest) = true
      · simp only [replaceGo, splitGo, hpre, if_true]
        rw [joinSep_nil_cons rep _ (splitGo_ne_nil pat rest (pat.length - 1)), ih]
      · rw [Bool.not_eq_true] at hpre
        rcases hsp : splitGo pat rest 0 with _ | ⟨x, xs⟩
        · exact absurd hsp (splitGo_ne_nil pat rest 0)
        · simp only [replaceGo, splitGo, hpre, Bool.false_eq_true, if_false, hsp,
            joinSep_consHead]
          rw [← hsp, ih]

/-- Python `s.replace(pat, rep)` equals `rep.join(s.split(pat))` for a
nonempty pattern: every non-overlapping occurrence is substituted. -/
theorem replaceAll_eq_joinSep_splitOnPat (pat rep s : List Char) (hp : pat ≠ []) :
    replaceAll pat rep s = joinSep rep (splitOnPat pat s) := by
  cases pat with
  | nil => exact absurd rfl hp
  | cons p ps => exact replaceGo_eq_joinSep (p :: ps) rep s 0

end ApplyFixesScript

namespace ApplyFixesScript

/-- No fix's matcher occurs in the document (the guarded edit's matcher
`step_32_marker` included). -/
def matcherFree (c : List Char) : Prop :=
  occursIn fix1a_old c = false ∧ occursIn fix1b_old c = false ∧
  occursIn step_32_marker c = false ∧ occursIn apo2_step3 c = false ∧
  occursIn apo2_apply c = false ∧ occursIn apo3_creation c = false ∧
  occursIn phase2_old c = false

/-- Every unguarded matcher is absent, and the guarded edit fires on nothing:
either its `step_31a` guard text is already present or its matcher is absent.
A buffer in this state is a fixed point of the whole script. -/
def stableUnder (c : List Char) : Prop :=
  occursIn fix1a_old c = false ∧ occursIn fix1b_old c = false ∧
  (occursIn step_31a c = true ∨ occursIn step_32_marker c = false) ∧
  occursIn apo2_step3 c = false ∧ occursIn apo2_apply c = false ∧
  occursIn apo3_creation c = false ∧ occursIn phase2_old c = false

instance (c : List Char) : Decidable (matcherFree c) := by
  unfold matcherFree; infer_instance

instance (c : List Char) : Decidable (stableUnder c) := by
  unfold stableUnder; infer_instance

theorem matcherFree_stableUnder {c : List Char} (h : matcherFree c) : stableUnder c :=
  ⟨h.1, h.2.1, Or.inr h.2.2.1, h.2.2.2.1, h.2.2.2.2.1, h.2.2.2.2.2.1, h.2.2.2.2.2.2⟩

/-- A buffer on which every edit is a no-op passes through the script
unchanged. -/
theorem applyFixes_of_stableUnder (c : List Char) (h : stableUnder c) :
    applyFixes c = c := by
  obtain ⟨h1, h2, h3, h4, h5, h6, h7⟩ := h
  have e1 : fix1a c = c := replaceAll_of_not_occurs h1
  have e2 : fix1b c = c := replaceAll_of_not_occurs h2
  have e3 : fix2 c = c := by
    unfold fix2
    rcases h3 with hg | hm
    · simp [hg]
    · by_cases hg : occursIn step_31a c = true
      · simp [hg]
      · rw [Bool.not_eq_true] at hg
        simp [hg, replaceAll_of_not_occurs hm]
  have e4 : fix3a c = c := replaceAll_of_not_occurs h4
  have e5 : fix3b c = c := replaceAll_of_not_occurs h5
  have e6 : fix3c c = c := replaceAll_of_not_occurs h6
  have e7 : fix4 c = c := replaceAll_of_not_occurs h7
  simp [applyFixes, e1, e2, e3, e4, e5, e6, e7]

/-- A document containing no matcher passes through the script unchanged. -/
theorem applyFixes_of_matcherFree (c : List Char) (h : matcherFree c) :
    applyFixes c = c :=
  applyFixes_of_stableUnder c (matcherFree_stableUnder h)

theorem fix1a_length_ge (c : List Char) : c.length ≤ (fix1a c).length :=
  replaceAll_length_ge _ _ (by decide) (by decide) c

theorem fix1b_length_ge (c : List Char) : c.length ≤ (fix1b c).length :=
  replaceAll_length_ge _ _ (by decide) (by decide) c

theorem fix2_length_ge (c : List Char) : c.length ≤ (fix2 c).length := by
  unfold fix2
  by_cases hg : occursIn step_31a c = true
  · simp [hg]
  · rw [Bool.not_eq_true] at hg
    simp only [hg, Bool.false_eq_true, if_false]
    refine replaceAll_length_ge _ _ (by decide) ?_ c
    rw [List.length_append]
    exact Nat.le_add_left _ _

theorem fix3a_length_ge (c : List Char) : c.length ≤ (fix3a c).length :=
  replaceAll_length_ge _ _ (by decide) (by decide) c

theorem fix3b_length_ge (c : List Char) : c.length ≤ (fix3b c).length :=
  replaceAll_length_ge _ _ (by decide) (by decide) c

theorem fix3c_length_ge (c : List Char) : c.length ≤ (fix3c c).length :=
  replaceAll_length_ge _ _ (by decide) (by decide) c

theorem fix4_length_ge (c : List Char) : c.length ≤ (fix4 c).length := by
  refine replaceAll_length_ge _ _ (by decide) ?_ c
  have : phase2_old.length ≤ (phase2_completion ++ phase2_tail).length := by decide
  simp only [List.length_append] at this ⊢
  omega

/-- The script never shortens the buffer: every replacement is at least as
long as its matcher. -/
theorem applyFixes_length_ge (c : List Char) : c.length ≤ (applyFixes c).length :=
  calc c.length ≤ (fix1a c).length := fix1a_length_ge c
    _ ≤ (fix1b (fix1a c)).length := fix1b_length_ge _
    _ ≤ (fix2 (fix1b (fix1a c))).length := fix2_length_ge _
    _ ≤ (fix3a (fix2 (fix1b (fix1a c)))).length := fix3a_length_ge _
    _ ≤ (fix3b (fix3a (fix2 (fix1b (fix1a c))))).length := fix3b_length_ge _
    _ ≤ (fix3c (fix3b (fix3a (fix2 (fix1b (fix1a c)))))).length := fix3c_length_ge _
    _ ≤ (applyFixes c).length := fix4_length_ge _

end ApplyFixesScript

namespace ApplyFixesScript

/-- C1 counterexample: on the document `fix1a_old`, the matcher of the second
edit (`fix1b_old`) does not occur, yet the run does not abort: it performs a
write, and the bytes on disk afterwards differ from the original document. -/
theorem c1_counterexample :
    occursIn fix1b_old fix1a_old = false ∧
    writesOf (script (some fix1a_old)).1 = [fix1a_new] ∧
    fix1a_new ≠ fix1a_old := by
  refine ⟨by decide, by decide, by decide⟩

/-- C1 (amended): the run never aborts on a missing matcher: after any
successful read it writes exactly once, the result of applying whatever edits
matched (absent matchers are silently skipped); when no matcher occurs at
all, the written content is byte-identical to the original. -/
theorem c1_amended :
    (∀ D, writesOf (script (some D)).1 = [applyFixes D]) ∧
    (∀ D, matcherFree D → writesOf (script (some D)).1 = [D]) := by
  constructor
  · intro D; rfl
  · intro D h
    show [applyFixes D] = [D]
    rw [applyFixes_of_matcherFree D h]

/-- C1 witness: a concrete matcher-free document is written back unchanged. -/
theorem c1_amended_witness :
    matcherFree (("x").toList) ∧
    writesOf (script (some (("x").toList))).1 = [("x").toList] :=
  ⟨by decide, c1_amended.2 (("x").toList) (by decide)⟩

/-- C2 counterexample: the script is not idempotent.  On the document
`apo2_step3 ++ apo2_step3.drop 2`, one application yields
`apo2_step3_new ++ apo2_step3.drop 2`, whose tail re-assembles the matcher
`apo2_step3` across the replacement boundary, so a second application changes
the buffer again. -/
theorem c2_counterexample :
    applyFixes (applyFixes (apo2_step3 ++ apo2_step3.drop 2)) ≠
      applyFixes (apo2_step3 ++ apo2_step3.drop 2) := by decide

/-- C2 (amended): applying the script twice equals applying it once exactly
when the once-patched buffer is stable: no unguarded matcher occurs in it and
the guarded edit fires on nothing (its `step_31a` guard text present or its
matcher absent).  The unguarded edits have no already-present skip, so this
can fail for adversarial documents. -/
theorem c2_amended (D : List Char) (h : stableUnder (applyFixes D)) :
    applyFixes (applyFixes D) = applyFixes D :=
  applyFixes_of_stableUnder (applyFixes D) h

/-- C2 witness: a concrete document whose once-patched form is stable, hence
idempotent. -/
theorem c2_amended_witness :
    stableUnder (applyFixes (("y").toList)) ∧
    applyFixes (applyFixes (("y").toList)) = applyFixes (("y").toList) :=
  ⟨by decide, c2_amended (("y").toList) (by decide)⟩

/-- C3 counterexample: on the document `fix1a_old ++ fix1a_old`, which holds
two occurrences of the first edit's matcher, the script replaces both, not
only the first: the result is `fix1a_new ++ fix1a_new`, not the
`fix1a_new ++ fix1a_old` the claim would give. -/
theorem c3_counterexample :
    applyFixes (fix1a_old ++ fix1a_old) = fix1a_new ++ fix1a_new ∧
    fix1a_new ++ fix1a_new ≠ fix1a_new ++ fix1a_old := by
  refine ⟨by decide, by decide⟩

/-- C3 (amended): each edit replaces every non-overlapping occurrence of its
matcher, scanned left to right (Python `str.replace` semantics): for any
nonempty matcher the result is the pieces of the document split on the
matcher, joined by the replacement. -/
theorem c3_amended (pat rep s : List Char) (hp : pat ≠ []) :
    replaceAll pat rep s = joinSep rep (splitOnPat pat s) :=
  replaceAll_eq_joinSep_splitOnPat pat rep s hp

/-- C3 witness: the split/join characterization at the first edit on a
two-occurrence document. -/
theorem c3_amended_witness :
    fix1a_old ≠ [] ∧
    replaceAll fix1a_old fix1a_new (fix1a_old ++ fix1a_old) =
      joinSep fix1a_new (splitOnPat fix1a_old (fix1a_old ++ fix1a_old)) :=
  ⟨by decide, c3_amended fix1a_old fix1a_new (fix1a_old ++ fix1a_old) (by decide)⟩

/-- C4 counterexample: on the empty document no matcher is found, yet the run
exits with status 0, not the non-zero status the claim requires. -/
theorem c4_counterexample :
    occursIn fix1a_old [] = false ∧ (script (some [])).2 = 0 := by
  refine ⟨by decide, rfl⟩

/-- C4 (amended): the exit status does not depend on matcher outcomes: every
run whose read and write succeed exits 0, and a run whose read fails exits
non-zero (the uncaught `IOError`). -/
theorem c4_amended :
    (∀ c, (script (some c)).2 = 0) ∧ (script none).2 = 1 :=
  ⟨fun _ => rfl, rfl⟩

/-- C5 counterexample: the printed report is identical for a document on
which an edit was applied (`fix1a_old`, which the script changes) and for the
empty document on which nothing was applied, so the report entries cannot
reflect what actually happened per edit. -/
theorem c5_counterexample :
    printsOf (script (some [])).1 = printsOf (script (some fix1a_old)).1 ∧
    applyFixes [] = [] ∧
    applyFixes fix1a_old ≠ fix1a_old := by
  refine ⟨by decide, by decide, by decide⟩

/-- C5 (amended): the report is the fixed five-line success message
`successLines`, printed unconditionally on every run that reaches the end
(read and write succeeded), independent of per-edit outcomes; a run whose
read fails prints nothing. -/
theorem c5_amended :
    (∀ c, printsOf (script (some c)).1 = successLines) ∧
    printsOf (script none).1 = [] :=
  ⟨fun _ => rfl, rfl⟩

/-- C6: edits are applied strictly in the listed order over one evolving
buffer: the script equals the left fold of the ordered seven-entry PatchSpec,
and concretely, on `apo2_step3.take (apo2_step3.length - 2) ++ fix1a_old`,
edit 1's replacement re-creates edit 4's matcher across the boundary and the
later edit 4 then finds and replaces it. -/
theorem c6_order_preservation :
    (∀ c, applyFixes c = fixesSpec.foldl applyEdit c) ∧
    applyFixes (apo2_step3.take (apo2_step3.length - 2) ++ fix1a_old) =
      apo2_step3_new ++ fix1a_new.drop 2 :=
  ⟨fun _ => rfl, by decide⟩

/-- C7: the run is deterministic: equal input document contents give
byte-identical written output, identical printed report, and equal exit
status. -/
theorem c7_determinism (c₁ c₂ : List Char) (h : c₁ = c₂) :
    writesOf (script (some c₁)).1 = writesOf (script (some c₂)).1 ∧
    printsOf (script (some c₁)).1 = printsOf (script (some c₂)).1 ∧
    (script (some c₁)).2 = (script (some c₂)).2 := by
  subst h; exact ⟨rfl, rfl, rfl⟩

/-- C7 witness: determinism at a concrete document. -/
theorem c7_determinism_witness :
    writesOf (script (some (("z").toList))).1 = writesOf (script (some (("z").toList))).1 ∧
    printsOf (script (some (("z").toList))).1 = printsOf (script (some (("z").toList))).1 ∧
    (script (some (("z").toList))).2 = (script (some (("z").toList))).2 :=
  c7_determinism (("z").toList) (("z").toList) rfl

/-- C8: when the document cannot be read, the run aborts at once with a
non-zero status and produces no effect at all: in particular the file is
never opened for writing. -/
theorem c8_unreadable_aborts :
    (script none).1 = [] ∧ (script none).2 = 1 ∧ writesOf (script none).1 = [] :=
  ⟨rfl, rfl, rfl⟩

/-- C9: every successful run reads the file exactly once, first, and writes
exactly once, a single wholesale overwrite with the fully patched buffer; no
run writes more than once. -/
theorem c9_single_read_single_write :
    (∀ c, writesOf (script (some c)).1 = [applyFixes c] ∧
      readsCount (script (some c)).1 = 1 ∧
      (script (some c)).1.head? = some FileOp.read) ∧
    (∀ r, (writesOf (script r).1).length ≤ 1) := by
  constructor
  · intro c; exact ⟨rfl, rfl, rfl⟩
  · intro r
    cases r with
    | none => simp [script, writesOf]
    | some c =>
      have h : writesOf (script (some c)).1 = [applyFixes c] := rfl
      rw [h]; simp

/-- C10: every replacement is strictly longer than its matcher, the script
never shortens the buffer, and a document containing no matcher is passed
through byte-identical. -/
theorem c10_length_monotonicity :
    (fix1a_old.length < fix1a_new.length ∧
     fix1b_old.length < fix1b_new.length ∧
     step_32_marker.length < (step_31a ++ step_32_marker).length ∧
     apo2_step3.length < apo2_step3_new.length ∧
     apo2_apply.length < apo2_apply_new.length ∧
     apo3_creation.length < apo3_creation_new.length ∧
     phase2_old.length < (phase2_completion ++ continuation ++ phase2_tail).length) ∧
    (∀ D, D.length ≤ (applyFixes D).length) ∧
    (∀ D, matcherFree D → applyFixes D = D) :=
  ⟨by decide, applyFixes_length_ge, applyFixes_of_matcherFree⟩

/-- C10 witness: a concrete matcher-free document passes through unchanged. -/
theorem c10_length_monotonicity_witness :
    matcherFree (("w").toList) ∧ applyFixes (("w").toList) = ("w").toList :=
  ⟨by decide, c10_length_monotonicity.2.2 (("w").toList) (by decide)⟩

end ApplyFixesScript
